import Mathlib

/-!
Verification of the night-segmentation and sleep-metric engine of the
`noctsleepy` repository (`src/noctsleepy/processing/sleep_variables.py` and
`src/noctsleepy/processing/utils.py`).

The input table is modelled as a list of per-sample rows.  A timestamp is
modelled by its calendar date (an integer day number, the exact epoch is
irrelevant) together with its wall-clock time of day in whole seconds since
midnight; `datetime.time` comparison in Python is equivalent to comparing
seconds since midnight.  Boolean columns are Lean `Bool`s.  The float
`nw_threshold` and the non-wear fractions are modelled as exact rationals.
-/

/-- One row of the processed actigraphy table (the columns consumed by the
core: `time`, `sleep_status`, `sib_periods`, `spt_periods`,
`nonwear_status`).  `date` is the calendar date of the timestamp as a day
number and `tod` its wall-clock time of day in seconds since midnight. -/
structure Sample where
  date : Int
  tod : Nat
  sleep_status : Bool
  sib_periods : Bool
  spt_periods : Bool
  nonwear_status : Bool
deriving DecidableEq, Repr

/-- A segmented row: an input sample together with the `night_date` column
added by `_filter_nights` (a calendar date, modelled as a day number). -/
structure NSample where
  sample : Sample
  night_date : Int
deriving DecidableEq, Repr

/-- The segmentation stage of `_filter_nights`
(`sleep_variables.py` lines 387-407): filter the rows to the nocturnal
window and attach the `night_date` column.  The crossing branch is taken
when `night_start > night_end`; there a row is kept when its time of day
`t` satisfies `t >= night_start or t < night_end`, and its `night_date` is
its own date when `t >= night_start` and its date minus one day otherwise.
In the non-crossing branch a row is kept when
`night_start <= t < night_end` and keyed by its own date. -/
def segmentNights (data : List Sample) (night_start night_end : Nat) :
    List NSample :=
  if night_end < night_start then
    ((data.filter fun s =>
        decide (night_start ≤ s.tod) || decide (s.tod < night_end)).map
      fun s =>
        ⟨s, if night_start ≤ s.tod then s.date else s.date - 1⟩)
  else
    ((data.filter fun s =>
        decide (night_start ≤ s.tod) && decide (s.tod < night_end)).map
      fun s => ⟨s, s.date⟩)

/-- The `non_wear_percentage` column of the `night_stats` frame in
`_filter_nights`: non-wear sample count of the night divided by its total
sample count, as an exact rational. -/
def nonWearFraction (noct : List NSample) (nd : Int) : ℚ :=
  ((noct.filter fun r => r.night_date == nd).countP
      fun r => r.sample.nonwear_status : ℚ) /
    ((noct.filter fun r => r.night_date == nd).length : ℚ)

/-- The distinct `night_date` group keys of the segmented frame (the order
of `polars` group keys is not specified; only membership matters to the
theorems below). -/
def nightDates (noct : List NSample) : List Int :=
  (noct.map fun r => r.night_date).dedup

/-- The `valid_nights` frame of `_filter_nights`: the night dates whose
non-wear fraction is at most `nw_threshold` (the comparison in the source
is `<=`, inclusive). -/
def validNightDates (noct : List NSample) (nw_threshold : ℚ) : List Int :=
  (nightDates noct).filter fun nd =>
    decide (nonWearFraction noct nd ≤ nw_threshold)

/-- Timestamp order on segmented rows, used for the final
`.sort("time")`. -/
def timeLE (a b : NSample) : Prop :=
  a.sample.date < b.sample.date ∨
    (a.sample.date = b.sample.date ∧ a.sample.tod ≤ b.sample.tod)

instance : DecidableRel timeLE := fun a b => by
  unfold timeLE; exact inferInstance

/-- `_filter_nights` (`sleep_variables.py` lines 361-430): segment the data
into nights, compute per-night non-wear fractions, keep only the rows of
nights whose fraction is at most the threshold (the inner join on
`night_date`), and sort by timestamp. -/
def _filter_nights (data : List Sample) (night_start night_end : Nat)
    (nw_threshold : ℚ) : List NSample :=
  let noct := segmentNights data night_start night_end
  List.insertionSort timeLE
    (noct.filter fun r =>
      (validNightDates noct nw_threshold).contains r.night_date)

/-- A Python exception raised by `SleepMetrics.__init__`: either the
explicit `ValueError` with its message, or the out-of-bounds error raised
by indexing element `[1]` of a one-element diff series. -/
inductive PyError where
  | valueError (msg : String)
  | indexError
deriving DecidableEq, Repr

/-- The state established by a successful `SleepMetrics.__init__`: the
filtered `night_data` and the `sampling_time` in seconds. -/
structure SleepMetricsState where
  night_data : List NSample
  sampling_time : Int
deriving DecidableEq, Repr

/-- `SleepMetrics.__init__` (`sleep_variables.py` lines 60-92): filter the
nights; raise `ValueError("No valid nights found in the data.")` when the
result is empty; otherwise set `sampling_time` from
`night_data["time"].dt.time().diff()[1].total_seconds()` - the difference
in seconds between the times of day of the second and first retained rows,
which raises an out-of-bounds error when `night_data` has exactly one
row. -/
def initSleepMetrics (data : List Sample) (night_start night_end : Nat)
    (nw_threshold : ℚ) : Except PyError SleepMetricsState :=
  match _filter_nights data night_start night_end nw_threshold with
  | [] => .error (.valueError "No valid nights found in the data.")
  | [_] => .error .indexError
  | r0 :: r1 :: rest =>
      .ok ⟨r0 :: r1 :: rest, (r1.sample.tod : Int) - (r0.sample.tod : Int)⟩

/-- A `datetime.time` value as constructed by the source: separate hour,
minute and second fields. -/
structure ClockTime where
  hour : Nat
  minute : Nat
  second : Nat
deriving DecidableEq, Repr

instance : Inhabited ClockTime := ⟨⟨0, 0, 0⟩⟩

/-- Seconds since midnight of a `ClockTime`. -/
def toSeconds (t : ClockTime) : Nat :=
  t.hour * 3600 + t.minute * 60 + t.second

/-- `_get_night_midpoint` (`sleep_variables.py` lines 433-454): convert
both times to seconds since midnight, add 24 hours to the end when it is
smaller than the start, take the floor of the half sum by integer
division, and rebuild a time of day from the result modulo 24 hours. -/
def _get_night_midpoint (start «end» : ClockTime) : ClockTime :=
  let start_s := start.hour * 3600 + start.minute * 60 + start.second
  let end_s0 := «end».hour * 3600 + «end».minute * 60 + «end».second
  let end_s := if end_s0 < start_s then end_s0 + 24 * 3600 else end_s0
  let midpoint_s := (start_s + end_s) / 2
  ⟨midpoint_s % (24 * 3600) / 3600, midpoint_s % 3600 / 60, midpoint_s % 60⟩

/-- `_convert_time_to_minutes` (`utils.py` lines 9-18): minutes since
midnight of a time of day, as a real number.  The source computes with
IEEE doubles; the claims settled against these definitions are exact at
every input used, so the idealisation by exact reals is faithful there. -/
noncomputable def _convert_time_to_minutes (t : ClockTime) : ℝ :=
  t.hour * 60 + t.minute + t.second / 60

/-- Python `x % y` on floats (`x - y * floor (x / y)`), as used by
`_convert_minutes_to_time`. -/
noncomputable def pyMod (x y : ℝ) : ℝ := x - y * ⌊x / y⌋

/-- `_convert_minutes_to_time` (`utils.py` lines 21-34): reduce the minute
value modulo 1440 and split it into whole hours, minutes and (truncated)
seconds.  Python's `int` truncates toward zero; every value it is applied
to here is nonnegative, so it is the floor. -/
noncomputable def _convert_minutes_to_time (minutes : ℝ) : ClockTime :=
  let m := pyMod minutes 1440
  ⟨(⌊m / 60⌋).toNat, (⌊pyMod m 60⌋).toNat, (⌊pyMod m 1 * 60⌋).toNat⟩

/-- The `radians_conversion` constant `2 * pi / 1440` of `utils.py`. -/
noncomputable def radiansConversion : ℝ := 2 * Real.pi / 1440

/-- `np.arctan2 y x`, by the standard quadrant case split; in particular
`arctan2 0 0 = 0`, as in numpy. -/
noncomputable def atan2 (y x : ℝ) : ℝ :=
  if 0 < x then Real.arctan (y / x)
  else if x < 0 then
    (if 0 ≤ y then Real.arctan (y / x) + Real.pi
     else Real.arctan (y / x) - Real.pi)
  else if 0 < y then Real.pi / 2
  else if y < 0 then -(Real.pi / 2)
  else 0

/-- `compute_circular_mean_time` (`utils.py` lines 37-63): map each time of
day to an angle, sum the sines and cosines, take `arctan2` of the sums,
convert the mean angle back to minutes (wrapping a negative result by
+1440) and render it as a time of day.  The function is total: an empty
input yields zero sums and `arctan2 0 0 = 0`. -/
noncomputable def compute_circular_mean_time (ts : List ClockTime) :
    ClockTime :=
  let minutes := ts.map _convert_time_to_minutes
  let angles := minutes.map fun m => radiansConversion * m
  let sinSum := (angles.map Real.sin).sum
  let cosSum := (angles.map Real.cos).sum
  let meanAngle := atan2 sinSum cosSum
  let meanMinutes := meanAngle / radiansConversion
  _convert_minutes_to_time
    (if meanMinutes < 0 then meanMinutes + 1440 else meanMinutes)

/-- The mean resultant length `r = sqrt(sin_sum^2 + cos_sum^2) / n`
computed by `compute_circular_sd_time`. -/
noncomputable def meanResultantLength (ts : List ClockTime) : ℝ :=
  let angles := (ts.map _convert_time_to_minutes).map
    fun m => radiansConversion * m
  let sinSum := (angles.map Real.sin).sum
  let cosSum := (angles.map Real.cos).sum
  Real.sqrt (sinSum ^ 2 + cosSum ^ 2) / (ts.length : ℝ)

/-- `compute_circular_sd_time` (`utils.py` lines 66-92): when the mean
resultant length is below `1e-10` return `float("inf")` (modelled by the
top element of `EReal`), otherwise return
`sqrt (-2 * log r) / radians_conversion` minutes. -/
noncomputable def compute_circular_sd_time (ts : List ClockTime) : EReal :=
  let r := meanResultantLength ts
  if r < 1e-10 then ⊤
  else ((Real.sqrt (-2 * Real.log r) / radiansConversion : ℝ) : EReal)

/-- The per-night sleep-midpoint values feeding `social_jetlag` are series
of times of day; their polars subtraction yields a Duration series (in
seconds), a NaN float is assigned when either side is empty, and polars
raises a shape error when the lengths differ with neither side of length
one (length-one series broadcast). -/
inductive SJResult where
  | nanValue
  | durationSeries (seconds : List Int)
  | shapeError
deriving DecidableEq, Repr

/-- `SleepMetrics.social_jetlag` (`sleep_variables.py` lines 317-330):
`float("nan")` when either midpoint series is empty, otherwise the raw
polars series subtraction `weekend_midpoint - weekday_midpoint` - a
signed, element-wise Duration series, with length-one broadcasting. -/
def social_jetlag (weekday_midpoint weekend_midpoint : List ClockTime) :
    SJResult :=
  if weekday_midpoint.isEmpty || weekend_midpoint.isEmpty then .nanValue
  else if weekday_midpoint.length = weekend_midpoint.length then
    .durationSeries (List.zipWith
      (fun we wd => (toSeconds we : Int) - (toSeconds wd : Int))
      weekend_midpoint weekday_midpoint)
  else if weekday_midpoint.length = 1 then
    .durationSeries (weekend_midpoint.map fun we =>
      (toSeconds we : Int) -
        (toSeconds (weekday_midpoint.headI) : Int))
  else if weekend_midpoint.length = 1 then
    .durationSeries (weekday_midpoint.map fun wd =>
      (toSeconds (weekend_midpoint.headI) : Int) - (toSeconds wd : Int))
  else .shapeError

/-- The lagged condition of the `candidate_sleep_bout` expression in
`keep_longest_sleep_window` (`utils.py` lines 112-123):
`night_date.diff().dt.total_days() != 0` or
`sleep_status.cast(Int8).diff() == 1` (an awake-to-sleep transition). -/
def boutCond (prev cur : NSample) : Bool :=
  (cur.night_date != prev.night_date) ||
    (cur.sample.sleep_status && !prev.sample.sleep_status)

/-- Tail of the bout assignment: each row after the first carries the
running `cum_sum` of the boolean condition. -/
def assignBoutsAux (prev : NSample) (c : Nat) :
    List NSample → List (NSample × Option Nat)
  | [] => []
  | r :: rs =>
      let c' := if boutCond prev r then c + 1 else c
      (r, some c') :: assignBoutsAux r c' rs

/-- The `candidate_sleep_bout` column: both lagged `diff` expressions are
null on the first row, so its condition is null and `cum_sum` leaves the
null in place - the first row of the table gets a null bout id (`none`),
and every later row the running count of true conditions. -/
def assignBouts : List NSample → List (NSample × Option Nat)
  | [] => []
  | r :: rs => (r, none) :: assignBoutsAux r 0 rs

/-- The distinct `(night_date, candidate_sleep_bout)` keys of the
sleep-status-true rows (group keys of the `bout_lengths` frame). -/
def sleepKeys (tagged : List (NSample × Option Nat)) :
    List (Int × Option Nat) :=
  ((tagged.filter fun p => p.1.sample.sleep_status).map
      fun p => (p.1.night_date, p.2)).dedup

/-- The `bout_lengths` frame: each key with the number of
sleep-status-true rows carrying it. -/
def boutLengths (tagged : List (NSample × Option Nat)) :
    List ((Int × Option Nat) × Nat) :=
  (sleepKeys tagged).map fun k =>
    (k, (tagged.filter fun p => p.1.sample.sleep_status).countP
      fun p => (p.1.night_date, p.2) == k)

/-- The `longest_bout_per_night_date` frame: per night date, the bout id
drawn last from the key list after a stable ascending sort by bout length
(`sort_by("bout_length").last()`). -/
def longestPerNight (bl : List ((Int × Option Nat) × Nat)) :
    List (Int × Option Nat) :=
  ((bl.map fun e => e.1.1).dedup).filterMap fun nd =>
    (List.insertionSort (fun a b => a.2 ≤ b.2)
        (bl.filter fun e => e.1.1 == nd)).getLast?.map
      fun e => (nd, e.1.2)

/-- `keep_longest_sleep_window` (`utils.py` lines 95-147): assign bout
ids, find the longest bout per night, inner-join on `night_date` and keep
the rows whose bout id equals the night's longest (a null bout id never
compares equal, matching polars' null propagation in `==`) and whose
`sleep_status` is true. -/
def keep_longest_sleep_window (night_data : List NSample) : List NSample :=
  let tagged := assignBouts night_data
  let longest := longestPerNight (boutLengths tagged)
  (tagged.filter fun p =>
      match longest.lookup p.1.night_date with
      | some lb =>
          (match p.2, lb with
           | some a, some b => a == b
           | _, _ => false) && p.1.sample.sleep_status
      | none => false).map fun p => p.1

/-- A sample inside the default crossing window, at 21:00 wall clock. -/
def windowSample : Sample := ⟨0, 75600, false, false, false, false⟩

/-- A table covering only one minute (21:00 and 21:01 of one day), far less
than one full occurrence of the default [20:00, 08:00) night window. -/
def partialWindowData : List Sample :=
  [⟨0, 75600, false, false, false, false⟩,
   ⟨0, 75660, false, false, false, false⟩]

/-- The first segmented row produced from `partialWindowData`. -/
def pwRow0 : NSample := ⟨⟨0, 75600, false, false, false, false⟩, 0⟩

/-- The second segmented row produced from `partialWindowData`. -/
def pwRow1 : NSample := ⟨⟨0, 75660, false, false, false, false⟩, 0⟩

/-- A table whose two samples (10:00 and 10:01) both lie outside the
default night window, so segmentation yields no nights at all. -/
def noNightData : List Sample :=
  [⟨0, 36000, false, false, false, false⟩,
   ⟨0, 36060, false, false, false, false⟩]

/-- A table with a single in-window row. -/
def singleRowData : List Sample := [⟨0, 75600, false, false, false, false⟩]

/-- Two in-window samples of one night, exactly one of them non-wear, so
the night's non-wear fraction is exactly 1/2. -/
def halfNonWearData : List Sample :=
  [⟨0, 75600, false, false, false, true⟩,
   ⟨0, 75660, false, false, false, false⟩]

/-- The first segmented row of `halfNonWearData` (the non-wear one). -/
def hnwRow0 : NSample := ⟨⟨0, 75600, false, false, false, true⟩, 0⟩

/-- The second segmented row of `halfNonWearData`. -/
def hnwRow1 : NSample := ⟨⟨0, 75660, false, false, false, false⟩, 0⟩

/-- A segmented row of the single night 0 with a given time of day and
sleep status. -/
def nightRow (tod : Nat) (sleep : Bool) : NSample :=
  ⟨⟨0, tod, sleep, false, false, false⟩, 0⟩

/-- One night containing two contiguous sleep runs: rows 0-3 (length 4,
starting at the very first row of the table) and rows 5-6 (length 2). -/
def boutExample : List NSample :=
  [nightRow 0 true, nightRow 1 true, nightRow 2 true, nightRow 3 true,
   nightRow 4 false, nightRow 5 true, nightRow 6 true]

/-- The bout tagging only decorates the rows: projecting the tags away
returns the input (auxiliary form). -/
theorem assignBoutsAux_map_fst (prev : NSample) (c : Nat)
    (l : List NSample) : (assignBoutsAux prev c l).map Prod.fst = l := by
  induction l generalizing prev c with
  | nil => rfl
  | cons r rs ih => simp [assignBoutsAux, ih]

/-- The bout tagging only decorates the rows: projecting the tags away
returns the input. -/
theorem assignBouts_map_fst (l : List NSample) :
    (assignBouts l).map Prod.fst = l := by
  cases l with
  | nil => rfl
  | cons r rs => simp [assignBouts, assignBoutsAux_map_fst]

/-- Membership in the `valid_nights` frame: a night date is valid exactly
when it is a group key and its non-wear fraction is at most the
threshold. -/
theorem mem_validNightDates {noct : List NSample} {thr : ℚ} {nd : Int} :
    nd ∈ validNightDates noct thr ↔
      nd ∈ nightDates noct ∧ nonWearFraction noct nd ≤ thr := by
  unfold validNightDates
  rw [List.mem_filter]
  simp only [decide_eq_true_eq]

/-- Membership in the output of `_filter_nights`: a segmented row survives
exactly when its night's non-wear fraction is at most the threshold. -/
theorem mem_filter_nights {data : List Sample} {ns ne : Nat} {thr : ℚ}
    {r : NSample} :
    r ∈ _filter_nights data ns ne thr ↔
      r ∈ segmentNights data ns ne ∧
        nonWearFraction (segmentNights data ns ne) r.night_date ≤ thr := by
  unfold _filter_nights
  rw [(List.perm_insertionSort timeLE _).mem_iff]
  rw [List.mem_filter]
  constructor
  · rintro ⟨h1, h2⟩
    rw [List.contains, List.elem_iff, mem_validNightDates] at h2
    exact ⟨h1, h2.2⟩
  · rintro ⟨h1, h2⟩
    refine ⟨h1, ?_⟩
    rw [List.contains, List.elem_iff, mem_validNightDates]
    exact ⟨List.mem_dedup.2 (List.mem_map_of_mem _ h1), h2⟩

/-- `arctan2` of two zero sums is zero, as in numpy. -/
theorem atan2_zero_zero : atan2 0 0 = 0 := by
  unfold atan2
  norm_num

/-- Evaluation of the circular mean on the empty series: the sums are
zero, the mean angle is `arctan2 0 0 = 0`, and the rendered result is
midnight. -/
theorem mean_time_empty_eval : compute_circular_mean_time [] = ⟨0, 0, 0⟩ := by
  have hconv : _convert_minutes_to_time 0 = ⟨0, 0, 0⟩ := by
    unfold _convert_minutes_to_time pyMod
    norm_num
  unfold compute_circular_mean_time
  simp only [List.map_nil, List.sum_nil, atan2_zero_zero, zero_div,
    lt_irrefl, if_false]
  exact hconv

/-- Evaluation of `_filter_nights` on the one-minute table: both rows fall
in night 0, whose non-wear fraction 0 is below the threshold 1/5, so both
rows survive. -/
theorem filter_partialWindowData :
    _filter_nights partialWindowData 72000 28800 (1/5) =
      [pwRow0, pwRow1] := by
  have hseg : segmentNights partialWindowData 72000 28800 =
      [pwRow0, pwRow1] := by decide
  have hv : validNightDates [pwRow0, pwRow1] (1/5) = [0] := by
    simp [validNightDates, nightDates, pwRow0, pwRow1,
      List.dedup_cons_of_mem]
    norm_num [nonWearFraction]
  simp only [_filter_nights, hseg, hv]
  simp [List.insertionSort, List.orderedInsert, timeLE, pwRow0, pwRow1]

/-- Evaluation of `_filter_nights` on the one-row table: the single row
survives (fraction 0), leaving a one-row night frame. -/
theorem filter_singleRowData :
    _filter_nights singleRowData 72000 28800 (1/5) = [pwRow0] := by
  have hseg : segmentNights singleRowData 72000 28800 = [pwRow0] := by
    decide
  have hv : validNightDates [pwRow0] (1/5) = [0] := by
    simp [validNightDates, nightDates, pwRow0]
    norm_num [nonWearFraction]
  simp only [_filter_nights, hseg, hv]
  simp [List.insertionSort, List.orderedInsert, timeLE, pwRow0]

/-- Segmentation of the half-non-wear table. -/
theorem seg_halfNonWearData :
    segmentNights halfNonWearData 72000 28800 = [hnwRow0, hnwRow1] := by
  decide

/-- The non-wear fraction of the half-non-wear table's single night is
exactly 1/2. -/
theorem frac_halfNonWearData :
    nonWearFraction (segmentNights halfNonWearData 72000 28800)
      hnwRow0.night_date = 1/2 := by
  rw [seg_halfNonWearData]
  simp [nonWearFraction, hnwRow0, hnwRow1]

/-- Claim C1: for every input table and every midnight-crossing night
window (`night_start > night_end`), the segmented output contains exactly
the input samples whose time of day `t` satisfies `t >= night_start` or
`t < night_end`, and such a sample's `night_date` is its own calendar date
when `t >= night_start` and its calendar date minus one day when
`t < night_end`. -/
theorem filter_nights_crossing_segmentation (data : List Sample)
    (night_start night_end : Nat) (h : night_end < night_start)
    (s : Sample) (nd : Int) :
    (⟨s, nd⟩ : NSample) ∈ segmentNights data night_start night_end ↔
      s ∈ data ∧ (night_start ≤ s.tod ∨ s.tod < night_end) ∧
        nd = if night_start ≤ s.tod then s.date else s.date - 1 := by
  unfold segmentNights
  rw [if_pos h]
  simp only [List.mem_map, List.mem_filter, Bool.or_eq_true,
    decide_eq_true_eq, NSample.mk.injEq]
  constructor
  · rintro ⟨a, ⟨ha, hw⟩, rfl, hnd⟩
    exact ⟨ha, hw, hnd.symm⟩
  · rintro ⟨ha, hw, hnd⟩
    exact ⟨s, ⟨ha, hw⟩, rfl, hnd.symm⟩

/-- Witness for claim C1: at the concrete crossing window [20:00, 08:00)
the sample at 21:00 is segmented and keyed to its own date. -/
theorem filter_nights_crossing_segmentation_witness :
    (28800 : Nat) < 72000 ∧
      (⟨windowSample, 0⟩ : NSample) ∈
        segmentNights [windowSample] 72000 28800 :=
  ⟨by decide,
    (filter_nights_crossing_segmentation [windowSample] 72000 28800
        (by decide) windowSample 0).mpr (by decide)⟩

/-- Claim C2 (amended): whenever night segmentation yields zero valid
nights, `SleepMetrics.__init__` raises the explicit
`ValueError("No valid nights found in the data.")`. -/
theorem sleepmetrics_no_valid_nights (data : List Sample)
    (night_start night_end : Nat) (nw_threshold : ℚ)
    (h : _filter_nights data night_start night_end nw_threshold = []) :
    initSleepMetrics data night_start night_end nw_threshold =
      .error (.valueError "No valid nights found in the data.") := by
  simp only [initSleepMetrics, h]

/-- Witness for claim C2: the table whose samples all lie outside the
night window segments to nothing and construction fails with the
"no valid nights" error. -/
theorem sleepmetrics_no_valid_nights_witness :
    _filter_nights noNightData 72000 28800 (1/5) = [] ∧
      initSleepMetrics noNightData 72000 28800 (1/5) =
        .error (.valueError "No valid nights found in the data.") :=
  ⟨by decide, sleepmetrics_no_valid_nights _ _ _ _ (by decide)⟩

/-- Counterexample for claim C2 as stated: `partialWindowData` covers only
one minute of the twelve-hour night window [20:00, 08:00), yet its single
(partial) night has non-wear fraction 0 and is valid, so construction
succeeds instead of raising the "no valid nights" error. -/
theorem sleepmetrics_partial_window_ok :
    initSleepMetrics partialWindowData 72000 28800 (1/5) =
        .ok ⟨[pwRow0, pwRow1], 60⟩ ∧
      initSleepMetrics partialWindowData 72000 28800 (1/5) ≠
        .error (.valueError "No valid nights found in the data.") := by
  have hfil := filter_partialWindowData
  constructor
  · simp only [initSleepMetrics, hfil]
    norm_num [pwRow0, pwRow1]
  · simp only [initSleepMetrics, hfil]
    simp

/-- Claim C3: validity is inclusive at the threshold boundary - a
segmented row whose night has non-wear fraction exactly equal to
`nw_threshold` is retained by `_filter_nights`, and a row whose night's
fraction is strictly greater is excluded. -/
theorem filter_nights_threshold_boundary (data : List Sample)
    (night_start night_end : Nat) (nw_threshold : ℚ) (r : NSample)
    (hr : r ∈ segmentNights data night_start night_end) :
    (nonWearFraction (segmentNights data night_start night_end)
          r.night_date = nw_threshold →
        r ∈ _filter_nights data night_start night_end nw_threshold) ∧
      (nw_threshold <
          nonWearFraction (segmentNights data night_start night_end)
            r.night_date →
        r ∉ _filter_nights data night_start night_end nw_threshold) := by
  constructor
  · intro he
    exact mem_filter_nights.2 ⟨hr, le_of_eq he⟩
  · intro hgt hmem
    exact absurd (mem_filter_nights.1 hmem).2 (not_le.2 hgt)

/-- Witness for claim C3: a night with non-wear fraction exactly 1/2 is
retained at threshold 1/2. -/
theorem filter_nights_threshold_boundary_witness :
    hnwRow0 ∈ segmentNights halfNonWearData 72000 28800 ∧
      nonWearFraction (segmentNights halfNonWearData 72000 28800)
          hnwRow0.night_date = 1/2 ∧
      hnwRow0 ∈ _filter_nights halfNonWearData 72000 28800 (1/2) :=
  ⟨by decide, frac_halfNonWearData,
    (filter_nights_threshold_boundary halfNonWearData 72000 28800 (1/2)
        hnwRow0 (by decide)).1 frac_halfNonWearData⟩

/-- Counterexample for claim C4 as stated: in `boutExample` the longest
contiguous run of sleep rows is rows 0-3 (length 4), but the output of
`keep_longest_sleep_window` is rows 1-3 only - the first row of the table
carries a null bout id (null lagged diff), is never grouped with the
following rows, and is dropped, so the output is not exactly the longest
run. -/
theorem keep_longest_drops_first_sample :
    keep_longest_sleep_window boutExample =
        [nightRow 1 true, nightRow 2 true, nightRow 3 true] ∧
      nightRow 0 true ∈ boutExample ∧
      (nightRow 0 true).sample.sleep_status = true ∧
      nightRow 0 true ∉ keep_longest_sleep_window boutExample := by
  decide

/-- Claim C4 (amended): every row retained by `keep_longest_sleep_window`
is an input row with `sleep_status` true; consequently a night date with
no sleep rows contributes nothing to the output.  The retained set is the
per-night bout group of maximal length under the code's lagged-diff bout
assignment, in which the first row of the table always carries a null bout
id and is never retained: on `boutExample` (runs of length 4 and 2, the
4-run starting at the table's first row) the code retains the 4-run minus
its first sample. -/
theorem keep_longest_amended (rows : List NSample) (nd : Int)
    (h : ∀ r ∈ rows, r.night_date = nd → r.sample.sleep_status = false) :
    (∀ r ∈ keep_longest_sleep_window rows,
        r ∈ rows ∧ r.sample.sleep_status = true ∧ r.night_date ≠ nd) ∧
      keep_longest_sleep_window boutExample =
        [nightRow 1 true, nightRow 2 true, nightRow 3 true] := by
  constructor
  · intro r hr
    simp only [keep_longest_sleep_window, List.mem_map] at hr
    obtain ⟨p, hp, hpr⟩ := hr
    rw [List.mem_filter] at hp
    obtain ⟨hpt, hcond⟩ := hp
    have hmem : r ∈ rows := by
      rw [← assignBouts_map_fst rows]
      exact hpr ▸ List.mem_map_of_mem Prod.fst hpt
    have hsleep : r.sample.sleep_status = true := by
      rcases hl :
          (longestPerNight (boutLengths (assignBouts rows))).lookup
            p.1.night_date with _ | lb
      · rw [hl] at hcond
        simp at hcond
      · rw [hl] at hcond
        simp only [Bool.and_eq_true] at hcond
        rw [← hpr]
        exact hcond.2
    refine ⟨hmem, hsleep, fun hnd => ?_⟩
    have := h r hmem hnd
    rw [this] at hsleep
    exact Bool.false_ne_true hsleep
  · decide

/-- Witness for claim C4 (amended), at the concrete night table
`boutExample` and the absent night date 1. -/
theorem keep_longest_amended_witness :
    (∀ r ∈ keep_longest_sleep_window boutExample,
        r ∈ boutExample ∧ r.sample.sleep_status = true ∧
          r.night_date ≠ 1) ∧
      keep_longest_sleep_window boutExample =
        [nightRow 1 true, nightRow 2 true, nightRow 3 true] :=
  keep_longest_amended boutExample 1 (by decide)

/-- Counterexample for claim C5 as stated: on the empty sequence
`compute_circular_mean_time` does not fail - every operation in it is
total there (empty sums are zero and `arctan2 0 0 = 0`) and it returns
the time value midnight. -/
theorem circular_mean_empty_no_error :
    compute_circular_mean_time [] = ⟨0, 0, 0⟩ :=
  mean_time_empty_eval

/-- Claim C5 (amended): `compute_circular_mean_time` applied to an empty
sequence does not raise; the sine and cosine sums are zero,
`arctan2 0 0 = 0`, and the function returns midnight 00:00:00. -/
theorem circular_mean_empty_defined :
    compute_circular_mean_time [] = ⟨0, 0, 0⟩ ∧ atan2 0 0 = 0 :=
  ⟨mean_time_empty_eval, atan2_zero_zero⟩

/-- Claim C7: for every non-empty sequence of times of day,
`compute_circular_sd_time` returns positive infinity (the defined
sentinel) exactly when the mean resultant length
`r = sqrt(sin_sum^2 + cos_sum^2) / n` is below the epsilon `1e-10`, and
otherwise `sqrt(-2 ln r) / (2 pi / 1440)` minutes; in particular it
returns 0 for three identical times 10:00 and positive infinity for the
uniformly spread input 06:00, 12:00, 18:00, 00:00. -/
theorem circular_sd_spec (ts : List ClockTime) (h : ts ≠ []) :
    (meanResultantLength ts < 1e-10 → compute_circular_sd_time ts = ⊤) ∧
      (¬ meanResultantLength ts < 1e-10 →
        compute_circular_sd_time ts =
          ((Real.sqrt (-2 * Real.log (meanResultantLength ts)) /
              radiansConversion : ℝ) : EReal)) ∧
      compute_circular_sd_time [⟨10, 0, 0⟩, ⟨10, 0, 0⟩, ⟨10, 0, 0⟩] =
        ((0 : ℝ) : EReal) ∧
      compute_circular_sd_time
          [⟨6, 0, 0⟩, ⟨12, 0, 0⟩, ⟨18, 0, 0⟩, ⟨0, 0, 0⟩] = ⊤ := by
  clear h
  refine ⟨fun hlt => ?_, fun hge => ?_, ?_, ?_⟩
  · simp only [compute_circular_sd_time]
    rw [if_pos hlt]
  · simp only [compute_circular_sd_time]
    rw [if_neg hge]
  · have h600 : _convert_time_to_minutes ⟨10, 0, 0⟩ = 600 := by
      unfold _convert_time_to_minutes
      norm_num
    have hr1 :
        meanResultantLength [⟨10, 0, 0⟩, ⟨10, 0, 0⟩, ⟨10, 0, 0⟩] = 1 := by
      unfold meanResultantLength
      simp only [List.map_cons, List.map_nil, List.sum_cons, List.sum_nil,
        h600, List.length_cons, List.length_nil]
      have hsum :
          (Real.sin (radiansConversion * 600) +
              (Real.sin (radiansConversion * 600) +
                (Real.sin (radiansConversion * 600) + 0))) ^ 2 +
            (Real.cos (radiansConversion * 600) +
              (Real.cos (radiansConversion * 600) +
                (Real.cos (radiansConversion * 600) + 0))) ^ 2 = 9 := by
        have hpy := Real.sin_sq_add_cos_sq (radiansConversion * 600)
        nlinarith [hpy]
      rw [hsum]
      rw [show (9 : ℝ) = 3 ^ 2 by norm_num,
        Real.sqrt_sq (by norm_num : (0 : ℝ) ≤ 3)]
      norm_num
    simp only [compute_circular_sd_time, hr1]
    rw [if_neg (by norm_num)]
    norm_num
  · have hm6 : _convert_time_to_minutes ⟨6, 0, 0⟩ = 360 := by
      unfold _convert_time_to_minutes; norm_num
    have hm12 : _convert_time_to_minutes ⟨12, 0, 0⟩ = 720 := by
      unfold _convert_time_to_minutes; norm_num
    have hm18 : _convert_time_to_minutes ⟨18, 0, 0⟩ = 1080 := by
      unfold _convert_time_to_minutes; norm_num
    have hm0 : _convert_time_to_minutes ⟨0, 0, 0⟩ = 0 := by
      unfold _convert_time_to_minutes; norm_num
    have ha1 : radiansConversion * 360 = Real.pi / 2 := by
      unfold radiansConversion; ring
    have ha2 : radiansConversion * 720 = Real.pi := by
      unfold radiansConversion; ring
    have ha3 : radiansConversion * 1080 = Real.pi + Real.pi / 2 := by
      unfold radiansConversion; ring
    have ha4 : radiansConversion * 0 = 0 := mul_zero _
    have hs3 : Real.sin (Real.pi + Real.pi / 2) = -1 := by
      rw [Real.sin_add]
      simp
    have hc3 : Real.cos (Real.pi + Real.pi / 2) = 0 := by
      rw [Real.cos_add]
      simp
    have hr0 :
        meanResultantLength
          [⟨6, 0, 0⟩, ⟨12, 0, 0⟩, ⟨18, 0, 0⟩, ⟨0, 0, 0⟩] = 0 := by
      unfold meanResultantLength
      simp only [List.map_cons, List.map_nil, List.sum_cons, List.sum_nil,
        hm6, hm12, hm18, hm0, ha1, ha2, ha3, ha4, List.length_cons,
        List.length_nil]
      rw [Real.sin_pi_div_two, Real.sin_pi, hs3, Real.sin_zero,
        Real.cos_pi_div_two, Real.cos_pi, hc3, Real.cos_zero]
      norm_num
    simp only [compute_circular_sd_time, hr0]
    rw [if_pos (by norm_num)]

/-- Witness for claim C7: the identical-times instance, obtained from the
theorem at a concrete non-empty list. -/
theorem circular_sd_spec_witness :
    ([⟨10, 0, 0⟩, ⟨10, 0, 0⟩, ⟨10, 0, 0⟩] : List ClockTime) ≠ [] ∧
      compute_circular_sd_time [⟨10, 0, 0⟩, ⟨10, 0, 0⟩, ⟨10, 0, 0⟩] =
        ((0 : ℝ) : EReal) :=
  ⟨by decide,
    (circular_sd_spec [⟨10, 0, 0⟩, ⟨10, 0, 0⟩, ⟨10, 0, 0⟩]
        (by decide)).2.2.1⟩

/-- Claim C8: `_get_night_midpoint` converts both times to seconds since
midnight, adds 24 hours to the end when it is smaller than the start,
floors the half sum by integer division and renders the result back
modulo 24 hours; in particular the midpoint of 22:00 and 06:10 is
02:05. -/
theorem night_midpoint_spec (s e : ClockTime) :
    toSeconds (_get_night_midpoint s e) =
        (toSeconds s +
            (if toSeconds e < toSeconds s then toSeconds e + 24 * 3600
             else toSeconds e)) / 2 % (24 * 3600) ∧
      _get_night_midpoint ⟨22, 0, 0⟩ ⟨6, 10, 0⟩ = ⟨2, 5, 0⟩ := by
  constructor
  · simp only [_get_night_midpoint, toSeconds]
    split <;> omega
  · decide

/-- Claim C9: `social_jetlag` returns the NaN sentinel when either
midpoint series is empty, as claimed; but when both are non-empty it
returns the signed element-wise series difference, not the absolute
difference its own docstring promises - for weekday midpoint 03:00 and
weekend midpoint 02:00 it yields the negative duration -3600 seconds. -/
theorem social_jetlag_signed_not_absolute :
    social_jetlag [] [⟨2, 0, 0⟩] = .nanValue ∧
      social_jetlag [⟨3, 0, 0⟩] [] = .nanValue ∧
      social_jetlag [⟨3, 0, 0⟩] [⟨2, 0, 0⟩] = .durationSeries [-3600] ∧
      (-3600 : Int) < 0 := by
  decide

/-- Claim C10: `SleepMetrics.__init__` derives `sampling_time` exclusively
from the first two retained rows - whenever the filtered night data is
`r0 :: r1 :: rest`, for any `rest`, the stored sampling time is the
difference in seconds of the times of day of `r1` and `r0`; and on a
one-row result construction fails with the out-of-bounds error. -/
theorem sampling_time_first_pair (data : List Sample)
    (night_start night_end : Nat) (nw_threshold : ℚ) :
    (∀ r0 r1 rest,
        _filter_nights data night_start night_end nw_threshold =
            r0 :: r1 :: rest →
        initSleepMetrics data night_start night_end nw_threshold =
          .ok ⟨r0 :: r1 :: rest,
            (r1.sample.tod : Int) - (r0.sample.tod : Int)⟩) ∧
      (∀ r,
        _filter_nights data night_start night_end nw_threshold = [r] →
        initSleepMetrics data night_start night_end nw_threshold =
          .error .indexError) := by
  constructor
  · intro r0 r1 rest h
    simp only [initSleepMetrics, h]
  · intro r h
    simp only [initSleepMetrics, h]

/-- Witness for claim C10: the two-row table yields sampling time
75660 - 75600 seconds, and the one-row table fails with the out-of-bounds
error. -/
theorem sampling_time_first_pair_witness :
    _filter_nights partialWindowData 72000 28800 (1/5) =
        pwRow0 :: pwRow1 :: [] ∧
      initSleepMetrics partialWindowData 72000 28800 (1/5) =
        .ok ⟨pwRow0 :: pwRow1 :: [],
          (pwRow1.sample.tod : Int) - (pwRow0.sample.tod : Int)⟩ ∧
      _filter_nights singleRowData 72000 28800 (1/5) = [pwRow0] ∧
      initSleepMetrics singleRowData 72000 28800 (1/5) =
        .error .indexError :=
  ⟨filter_partialWindowData,
    (sampling_time_first_pair partialWindowData 72000 28800 (1/5)).1
      pwRow0 pwRow1 [] filter_partialWindowData,
    filter_singleRowData,
    (sampling_time_first_pair singleRowData 72000 28800 (1/5)).2
      pwRow0 filter_singleRowData⟩
